import Mathlib

/-
Verification of the LBM lattice solver core (funfluid/lbm/core/lattice.py)
against its natural-language specification.

The Python source operates on numpy float arrays; real arithmetic is
embedded as exact rational arithmetic (ℚ), except for the square roots in
the interpolated-bounce-back distances, which are embedded over ℝ.
Machine integers and numpy index arithmetic are embedded as ℤ with the
out-of-range / negative-wrap behavior of numpy made explicit (npIndex).
-/

/-- The D2Q9 velocity set, transcribed from lattice.py lines 86-87:
c = [[0,0],[1,0],[-1,0],[0,1],[0,-1],[1,1],[-1,-1],[-1,1],[1,-1]]. -/
def cL : List (ℤ × ℤ) :=
  [(0, 0), (1, 0), (-1, 0), (0, 1), (0, -1), (1, 1), (-1, -1), (-1, 1), (1, -1)]

/-- The same velocity set as a function on direction indices (row q of c). -/
def cI : Fin 9 → ℤ × ℤ := fun q => cL.getD q (0, 0)

/-- The opposite-direction array, transcribed from lattice.py line 100:
ns = [0, 2, 1, 4, 3, 6, 5, 8, 7] (list form, used by the obstacle code). -/
def nsL : List ℕ := [0, 2, 1, 4, 3, 6, 5, 8, 7]

/-- The opposite-direction array as a function on direction indices
(same transcription of line 100). -/
def ns : Fin 9 → Fin 9 := ![0, 2, 1, 4, 3, 6, 5, 8, 7]

/-- Squared Euclidean norm of the direction vector c[q], as a rational.
The source tests np.linalg.norm(ci) < 1.1 and > 1.1; since both sides are
nonnegative these are equivalent to the squared comparisons against
(11/10)^2 used below. -/
def cSqQ (q : Fin 9) : ℚ := ((cI q).1 : ℚ) ^ 2 + ((cI q).2 : ℚ) ^ 2

/-- Stage 1 of the weight construction (lattice.py line 94): w = np.ones(9). -/
def wOnes : Fin 9 → ℚ := fun _ => 1

/-- Stage 2 (line 95): w[idx_card] = 1/9 where idx_card is norm(ci) < 1.1. -/
def wCard : Fin 9 → ℚ := fun q => if cSqQ q < (11 / 10) ^ 2 then 1 / 9 else wOnes q

/-- Stage 3 (line 96): w[idx_extra_card] = 1/36 where idx_extra_card is
norm(ci) > 1.1. -/
def wExtra : Fin 9 → ℚ := fun q => if (11 / 10) ^ 2 < cSqQ q then 1 / 36 else wCard q

/-- Stage 4 (line 97): w[0] = 4/9.  This is the final weight vector. -/
def w : Fin 9 → ℚ := fun q => if q = 0 then 4 / 9 else wExtra q

/-- Macroscopic density, transcribed from BaseDefine.macro (line 161):
rho[:, :] = np.sum(g[:, :, :], axis=0). -/
def computeRho {nx ny : ℕ} (g : Fin 9 → Fin nx → Fin ny → ℚ) (i : Fin nx) (j : Fin ny) : ℚ :=
  ∑ q, g q i j

/-- Macroscopic x-velocity, transcribed from BaseDefine.macro (line 164):
u[0] = np.tensordot(c[:, 0], g, axes=(0,0)) / rho, where rho is the freshly
computed density.  (ℚ-division is total with x / 0 = 0.) -/
def computeUx {nx ny : ℕ} (g : Fin 9 → Fin nx → Fin ny → ℚ) (i : Fin nx) (j : Fin ny) : ℚ :=
  (∑ q, ((cI q).1 : ℚ) * g q i j) / computeRho g i j

/-- Macroscopic y-velocity, transcribed from BaseDefine.macro (line 165). -/
def computeUy {nx ny : ℕ} (g : Fin 9 → Fin nx → Fin ny → ℚ) (i : Fin nx) (j : Fin ny) : ℚ :=
  (∑ q, ((cI q).2 : ℚ) * g q i j) / computeRho g i j

/-- The mutable state read and written by Lattice.check_stop (lines 612-627):
the stop-mode string, the iteration counter, the iteration bound, the
compute flag, and the two convergence flags drag_buff.obs_cv and
lift_buff.obs_cv that check_stop only reads. -/
structure StopState where
  stop : String
  it : ℤ
  it_max : ℤ
  compute : Bool
  drag_cv : Bool
  lift_cv : Bool
deriving DecidableEq

/-- Transcription of Lattice.check_stop (lines 612-627): two sequential
non-exclusive if-statements may set compute (never clear it), then the
iteration counter is incremented and self.compute is returned. -/
def check_stop (s : StopState) : Bool × StopState :=
  let s1 := if s.stop = "it" ∧ s.it > s.it_max then { s with compute := true } else s
  let s2 := if s1.stop = "obs" ∧ s1.drag_cv = true ∧ s1.lift_cv = true then
    { s1 with compute := true } else s1
  let s3 := { s2 with it := s2.it + 1 }
  (s3.compute, s3)

/-- Modelled from the spec: error kind GridConfigError (nx or ny < 3).
No such error exists anywhere in the source; the type is introduced only so
that the constructor's (absent) error channel can be stated. -/
inductive GridConfigError where
  | gridTooSmall : GridConfigError
deriving DecidableEq

/-- Scalar configuration accepted by BaseDefine.__init__ via kwargs
(lines 27-55), with the source's default values.  ny defaults to nx
(kwargs.get('ny', self.nx)), modelled with an Option. -/
structure BaseConfig where
  x_min : ℚ := 0
  x_max : ℚ := 1
  y_min : ℚ := 0
  y_max : ℚ := 1
  nx : ℤ := 100
  ny : Option ℤ := none
  tau_lbm : ℚ := 1
  dx : ℚ := 1
  dt : ℚ := 1
  IBB : Bool := false
  stop : String := "it"
  it_max : ℤ := 1000

/-- Scalar state produced by BaseDefine.__init__ (lines 27-131):
derived grid scalars (lines 59-61), TRT parameters (lines 78-83) and the
iteration state (lines 128-129).  Array allocation, directory creation and
logging are elided. -/
structure BaseState where
  nx : ℤ
  ny : ℤ
  lx : ℤ
  ly : ℤ
  q : ℕ
  tau_p_lbm : ℚ
  lambda_trt : ℚ
  tau_m_lbm : ℚ
  om_p_lbm : ℚ
  om_m_lbm : ℚ
  om_lbm : ℚ
  stop : String
  it_max : ℤ
  it : ℤ
  compute : Bool
  IBB : Bool

/-- Transcription of BaseDefine.__init__ (lines 27-131).  The body of the
source constructor contains no conditional raise of any kind — in
particular no check of nx or ny — so the embedding is total and always
returns Except.ok. -/
def BaseDefine_init (cfg : BaseConfig) : Except GridConfigError BaseState :=
  let ny := cfg.ny.getD cfg.nx
  let tau_p := cfg.tau_lbm
  let lam := 1 / 4
  let tau_m := lam / (tau_p - 1 / 2) + 1 / 2
  Except.ok
    { nx := cfg.nx, ny := ny, lx := cfg.nx - 1, ly := ny - 1, q := 9,
      tau_p_lbm := tau_p, lambda_trt := lam, tau_m_lbm := tau_m,
      om_p_lbm := 1 / tau_p, om_m_lbm := 1 / tau_m, om_lbm := 1 / cfg.tau_lbm,
      stop := cfg.stop, it_max := cfg.it_max, it := 0, compute := false,
      IBB := cfg.IBB }

/-- Geometry parameters used by the obstacle code (fields of BaseDefine). -/
structure GridGeom where
  x_min : ℚ
  x_max : ℚ
  y_min : ℚ
  y_max : ℚ
  nx : ℕ
  ny : ℕ

/-- Transcription of Lattice.lattice_coords (lines 448-456). -/
def lattice_coords (cfg : GridGeom) (i j : ℤ) : ℚ × ℚ :=
  let dx := (cfg.x_max - cfg.x_min) / ((cfg.nx : ℚ) - 1)
  let dy := (cfg.y_max - cfg.y_min) / ((cfg.ny : ℚ) - 1)
  (cfg.x_min + i * dx, cfg.y_min + j * dy)

/-- np.amin on a list of rationals (value irrelevant for the empty list,
where numpy would raise). -/
def npMin (l : List ℚ) : ℚ :=
  match l with
  | [] => 0
  | x :: xs => xs.foldl min x

/-- np.amax on a list of rationals. -/
def npMax (l : List ℚ) : ℚ :=
  match l with
  | [] => 0
  | x :: xs => xs.foldl max x

/-- Transcription of Lattice.is_inside (lines 458-481): the even-odd
ray-casting loop.  j starts at len(poly)-1 and trails i; the slope division
only occurs when the y-interval test guarantees poly[i].y ≠ poly[j].y. -/
def is_inside (poly : List (ℚ × ℚ)) (pt : ℚ × ℚ) : Bool :=
  ((List.range poly.length).foldl
    (fun (st : ℕ × Bool) (i : ℕ) =>
      let j := st.1
      let pv := poly.getD i (0, 0)
      let pw := poly.getD j (0, 0)
      let odd :=
        if ((pv.2 < pt.2 ∧ pt.2 ≤ pw.2) ∨ (pw.2 < pt.2 ∧ pt.2 ≤ pv.2)) ∧
            (pv.1 < pt.1 ∨ pw.1 < pt.1) then
          (if pv.1 + (pt.2 - pv.2) * ((pw.1 - pv.1) / (pw.2 - pv.2)) < pt.1 then
            !st.2 else st.2)
        else st.2
      (i, odd))
    (poly.length - 1, false)).2

/-- The unit square polygon named by the spec's point-in-polygon property. -/
def unitSquare : List (ℚ × ℚ) := [(0, 0), (1, 0), (1, 1), (0, 1)]

/-- The per-cell tagging test of the fill loop in Lattice.add_obstacle
(lines 379-391): the cell's coordinate must lie strictly inside the polygon
bounding box (lines 367-371, 384-387) and inside the polygon. -/
def taggedCell (cfg : GridGeom) (poly : List (ℚ × ℚ)) (i j : ℕ) : Bool :=
  let pt := lattice_coords cfg i j
  if npMin (poly.map Prod.fst) < pt.1 ∧ pt.1 < npMax (poly.map Prod.fst) ∧
      npMin (poly.map Prod.snd) < pt.2 ∧ pt.2 < npMax (poly.map Prod.snd) then
    is_inside poly pt
  else false

/-- The obstacle array built by the fill loop (lines 379-391): all tagged
cells (i, j), i-major then j, in loop order. -/
def obstacleList (cfg : GridGeom) (poly : List (ℚ × ℚ)) : List (ℕ × ℕ) :=
  (List.range cfg.nx).flatMap (fun i =>
    (List.range cfg.ny).filterMap (fun j =>
      if taggedCell cfg poly i j then some (i, j) else none))

/-- The lattice tag grid after the fill loop (line 390): tagged cells are
set to tag, all other cells keep their previous value. -/
def fillLattice (cfg : GridGeom) (poly : List (ℚ × ℚ)) (tag : ℤ)
    (L : ℕ → ℕ → ℤ) : ℕ → ℕ → ℤ :=
  fun i j => if i < cfg.nx ∧ j < cfg.ny ∧ taggedCell cfg poly i j then tag else L i j

/-- numpy integer indexing into an axis of size n: an index in [0, n) is
used as is, an index in [-n, 0) silently wraps to i + n, anything else
raises IndexError (modelled as none). -/
def npIndex (n : ℕ) (i : ℤ) : Option ℕ :=
  if 0 ≤ i ∧ i < (n : ℤ) then some i.toNat
  else if -(n : ℤ) ≤ i ∧ i < 0 then some (i + n).toNat
  else none

/-- Reading lattice[i, j] with numpy index semantics on both axes. -/
def npRead (nx ny : ℕ) (L : ℕ → ℕ → ℤ) (i j : ℤ) : Option ℤ :=
  match npIndex nx i, npIndex ny j with
  | some a, some b => some (L a b)
  | _, _ => none

/-- The direction indices visited by the boundary-extraction loop
(line 401): range(1, 9). -/
def dirRange : List ℕ := [1, 2, 3, 4, 5, 6, 7, 8]

/-- One tagged cell's part of the boundary-extraction loop (lines 401-409):
for each direction q, read lattice[i + c[q].x, j + c[q].y]; an out-of-range
read raises (Except.error), a falsy (zero) read appends the boundary triple
(ii, jj, ns[q]) — note the stored ii, jj may be negative. -/
def dirsOf (nx ny : ℕ) (L : ℕ → ℕ → ℤ) (i j : ℕ) :
    List ℕ → Except String (List (ℤ × ℤ × ℕ))
  | [] => Except.ok []
  | q :: qs =>
    let cq := cL.getD q (0, 0)
    let ii := (i : ℤ) + cq.1
    let jj := (j : ℤ) + cq.2
    match npRead nx ny L ii jj with
    | none => Except.error "IndexError"
    | some v =>
      match dirsOf nx ny L i j qs with
      | Except.error e => Except.error e
      | Except.ok rest => Except.ok ((if v = 0 then [(ii, jj, nsL.getD q 0)] else []) ++ rest)

/-- The full boundary-extraction loop (lines 397-409) over the obstacle
cell list, accumulating boundary triples in loop order; the first
out-of-range access aborts the loop, as the numpy IndexError would. -/
def cellsOf (nx ny : ℕ) (L : ℕ → ℕ → ℤ) :
    List (ℕ × ℕ) → Except String (List (ℤ × ℤ × ℕ))
  | [] => Except.ok []
  | p :: ps =>
    match dirsOf nx ny L p.1 p.2 dirRange with
    | Except.error e => Except.error e
    | Except.ok l =>
      match cellsOf nx ny L ps with
      | Except.error e => Except.error e
      | Except.ok r => Except.ok (l ++ r)

/-- The list carried by a successful extraction ([] for the error case). -/
def getOk (e : Except String (List (ℤ × ℤ × ℕ))) : List (ℤ × ℤ × ℕ) :=
  match e with
  | Except.ok l => l
  | Except.error _ => []

/-- Whether an Except value is a success. -/
def isOk {ε α : Type} (e : Except ε α) : Bool :=
  match e with
  | Except.ok _ => true
  | Except.error _ => false

/-- Lexicographic order on the boundary triples, as np.unique sorts rows. -/
def rowLe (a b : ℤ × ℤ × ℕ) : Bool :=
  decide (a.1 < b.1 ∨ (a.1 = b.1 ∧ (a.2.1 < b.2.1 ∨ (a.2.1 = b.2.1 ∧ a.2.2 ≤ b.2.2))))

/-- Ordered insertion for the row sort. -/
def insertRow (x : ℤ × ℤ × ℕ) : List (ℤ × ℤ × ℕ) → List (ℤ × ℤ × ℕ)
  | [] => [x]
  | y :: ys => if rowLe x y then x :: y :: ys else y :: insertRow x ys

/-- Insertion sort of boundary rows in lexicographic order. -/
def sortRows (l : List (ℤ × ℤ × ℕ)) : List (ℤ × ℤ × ℕ) := l.foldr insertRow []

/-- np.unique(boundary, axis=0) (line 412): rows sorted lexicographically
with duplicates removed. -/
def npUnique (l : List (ℤ × ℤ × ℕ)) : List (ℤ × ℤ × ℕ) := (sortRows l).dedup

/-- Squared distance between a polygon vertex and a point (the summand of
dist = np.sqrt(x**2 + y**2) before the square root, lines 424-426). -/
def sqDist (v pt : ℚ × ℚ) : ℚ := (v.1 - pt.1) ^ 2 + (v.2 - pt.2) ^ 2

/-- np.argmin helper: first index of the minimum among the remaining
values, given the running index, best index and best value. -/
def argminAux : List ℚ → ℕ → ℕ → ℚ → ℕ
  | [], _, bi, _ => bi
  | x :: xs, i, bi, bv => if x < bv then argminAux xs (i + 1) i x else argminAux xs (i + 1) bi bv

/-- np.argmin on a list of rationals (0 on the empty list, where numpy
would raise). -/
def npArgmin : List ℚ → ℕ
  | [] => 0
  | x :: xs => argminAux xs 1 0 x

/-- Squared Euclidean norm of c[q] for a direction index given as ℕ. -/
def cNormSq (q : ℕ) : ℤ :=
  (cL.getD q (0, 0)).1 ^ 2 + (cL.getD q (0, 0)).2 ^ 2

/-- The distance value appended for one boundary node by the IBB loop of
add_obstacle (lines 419-429): pt = lattice_coords(i, j), dist the vector of
Euclidean vertex distances, mpt = argmin(dist), and
mdst = dist[mpt] / (dx * norm(c[q])).  The argmin is taken over the squared
distances, which has the same value since the square root is strictly
monotone on nonnegative inputs; the square roots are then applied in ℝ. -/
noncomputable def nodeDist (cfg : GridGeom) (dx : ℚ) (poly : List (ℚ × ℚ))
    (b : ℤ × ℤ × ℕ) : ℝ :=
  let pt := lattice_coords cfg b.1 b.2.1
  let ds := poly.map (fun v => sqDist v pt)
  let mpt := npArgmin ds
  Real.sqrt ((ds.getD mpt 0 : ℚ) : ℝ) / ((dx : ℝ) * Real.sqrt ((cNormSq b.2.2 : ℤ) : ℝ))

/-- The ibb array built by add_obstacle when IBB is enabled: it starts as
np.empty(1) (line 376) — one uninitialized entry, modelled by the
parameter junk — and the loop (lines 419-429) then appends one distance
per boundary row. -/
noncomputable def ibbFill (junk : ℝ) (cfg : GridGeom) (dx : ℚ)
    (poly : List (ℚ × ℚ)) (bdry : List (ℤ × ℤ × ℕ)) : List ℝ :=
  junk :: bdry.map (nodeDist cfg dx poly)

/-- An all-fluid (all-zero) initial tag grid. -/
def L0 : ℕ → ℕ → ℤ := fun _ _ => 0

/-- Concrete scenario A: 3x3 grid on [0, 2]^2 (unit spacing). -/
def cfg1 : GridGeom := ⟨0, 2, 0, 2, 3, 3⟩

/-- Scenario A polygon: strictly contains every grid node, so every cell
of the grid is tagged, including the edge rows and columns. -/
def P1 : List (ℚ × ℚ) := [(-1, -1), (3, -1), (3, 3), (-1, 3)]

/-- Explicit form of the scenario-A tag grid on the 3x3 domain. -/
def Lex1 : ℕ → ℕ → ℤ := fun _ _ => 1

/-- Concrete scenario B: 5x5 grid on [0, 4]^2 (unit spacing). -/
def cfg2 : GridGeom := ⟨0, 4, 0, 4, 5, 5⟩

/-- Scenario B polygon: a rectangle overlapping the left domain edge; it
tags cells (0..1, 1..3), including column i = 0. -/
def P2 : List (ℚ × ℚ) := [(-1, 1 / 2), (3 / 2, 1 / 2), (3 / 2, 7 / 2), (-1, 7 / 2)]

/-- Explicit form of the scenario-B tag grid. -/
def Lex2 : ℕ → ℕ → ℤ := fun a b => if a ≤ 1 ∧ 1 ≤ b ∧ b ≤ 3 then 1 else 0

/-- Scenario C polygon (on the scenario-B 5x5 grid): a small square
tagging only the interior cell (2, 2). -/
def P3 : List (ℚ × ℚ) := [(3 / 2, 3 / 2), (5 / 2, 3 / 2), (5 / 2, 5 / 2), (3 / 2, 5 / 2)]

/-- Explicit form of the scenario-C tag grid. -/
def Lex3 : ℕ → ℕ → ℤ := fun a b => if a = 2 ∧ b = 2 then 1 else 0

/-- The unique-sorted boundary-node list produced by add_obstacle for
scenario C (the eight fluid neighbors of cell (2, 2)). -/
def bdry3 : List (ℤ × ℤ × ℕ) :=
  npUnique (getOk (cellsOf 5 5 (fillLattice cfg2 P3 1 L0) (obstacleList cfg2 P3)))

/-- Witness state for C1: a 1x1 grid with unit distributions. -/
def gW : Fin 9 → Fin 1 → Fin 1 → ℚ := fun _ _ _ => 1

/-- Witness tag grid for C1: all fluid. -/
def lattW : Fin 1 → Fin 1 → ℤ := fun _ _ => 0

/-- C2 counterexample tag grid on a 2x2 domain: cell (1, 1) is obstacle. -/
def lattC : Fin 2 → Fin 2 → ℤ := fun i j => if i = 1 ∧ j = 1 then 1 else 0

/-- C2 counterexample distributions: constant one everywhere. -/
def gA : Fin 9 → Fin 2 → Fin 2 → ℚ := fun _ _ _ => 1

/-- C2 counterexample distributions: agree with gA at every fluid cell but
differ at the obstacle cell (1, 1). -/
def gB : Fin 9 → Fin 2 → Fin 2 → ℚ := fun _ i j => if i = 1 ∧ j = 1 then 2 else 1

/-- C3 counterexample state: stop mode 'it' with the iteration counter
exactly at it_max and the compute flag clear. -/
def sEq : StopState := ⟨"it", 5, 5, false, false, false⟩

/-- C3 witness state: stop mode 'it' with the counter beyond it_max. -/
def sIt : StopState := ⟨"it", 6, 5, false, false, false⟩

/-- C10 witness state: compute flag already set, criteria both false. -/
def sW : StopState := ⟨"obs", 0, 5, true, false, false⟩

/-- C4 counterexample configuration: nx = ny = 2, below the spec's minimum
grid size. -/
def cfgTiny : BaseConfig := { nx := 2, ny := some 2 }

/-- An in-range index is passed through unchanged by numpy indexing. -/
theorem npIndex_in_range {n : ℕ} {i : ℤ} (h0 : 0 ≤ i) (h1 : i < (n : ℤ)) :
    npIndex n i = some i.toNat := by
  simp [npIndex, h0, h1]

/-- A successful numpy index is always below the axis length. -/
theorem npIndex_some_lt {n : ℕ} {i : ℤ} {a : ℕ} (h : npIndex n i = some a) : a < n := by
  unfold npIndex at h
  split_ifs at h with h1 h2 <;> simp_all <;> omega

/-- npRead only consults the lattice below the axis bounds, so two
lattices agreeing there are read identically. -/
theorem npRead_congr {nx ny : ℕ} {L M : ℕ → ℕ → ℤ}
    (h : ∀ a b, a < nx → b < ny → L a b = M a b) (i j : ℤ) :
    npRead nx ny L i j = npRead nx ny M i j := by
  unfold npRead
  cases hi : npIndex nx i <;> cases hj : npIndex ny j <;> simp
  exact h _ _ (npIndex_some_lt hi) (npIndex_some_lt hj)

/-- dirsOf depends on the lattice only through in-range reads. -/
theorem dirsOf_congr {nx ny : ℕ} {L M : ℕ → ℕ → ℤ}
    (h : ∀ a b, a < nx → b < ny → L a b = M a b) (i j : ℕ) (qs : List ℕ) :
    dirsOf nx ny L i j qs = dirsOf nx ny M i j qs := by
  induction qs with
  | nil => rfl
  | cons q qs ih => simp only [dirsOf, npRead_congr h, ih]

/-- cellsOf depends on the lattice only through in-range reads. -/
theorem cellsOf_congr {nx ny : ℕ} {L M : ℕ → ℕ → ℤ}
    (h : ∀ a b, a < nx → b < ny → L a b = M a b) (ps : List (ℕ × ℕ)) :
    cellsOf nx ny L ps = cellsOf nx ny M ps := by
  induction ps with
  | nil => rfl
  | cons p ps ih => simp only [cellsOf, dirsOf_congr h, ih]

/-- For a strictly interior cell, every direction read succeeds without
wrapping and dirsOf returns a success. -/
theorem dirsOf_interior_ok {nx ny : ℕ} (L : ℕ → ℕ → ℤ) {i j : ℕ}
    (hi1 : 1 ≤ i) (hi2 : i + 1 < nx) (hj1 : 1 ≤ j) (hj2 : j + 1 < ny)
    (qs : List ℕ)
    (hqs : ∀ q ∈ qs, -1 ≤ (cL.getD q (0, 0)).1 ∧ (cL.getD q (0, 0)).1 ≤ 1 ∧
      -1 ≤ (cL.getD q (0, 0)).2 ∧ (cL.getD q (0, 0)).2 ≤ 1) :
    ∃ l, dirsOf nx ny L i j qs = Except.ok l := by
  induction qs with
  | nil => exact ⟨[], rfl⟩
  | cons q qs ih =>
    obtain ⟨l, hl⟩ := ih (fun r hr => hqs r (List.mem_cons_of_mem _ hr))
    obtain ⟨hb1, hb2, hb3, hb4⟩ := hqs q (List.mem_cons_self q qs)
    have hrd : npRead nx ny L ((i : ℤ) + (cL.getD q (0, 0)).1)
        ((j : ℤ) + (cL.getD q (0, 0)).2) =
        some (L ((i : ℤ) + (cL.getD q (0, 0)).1).toNat
          ((j : ℤ) + (cL.getD q (0, 0)).2).toNat) := by
      unfold npRead
      rw [npIndex_in_range (by omega) (by omega), npIndex_in_range (by omega) (by omega)]
    simp only [dirsOf, hrd, hl]
    exact ⟨_, rfl⟩

/-- When every obstacle cell is strictly interior, the whole boundary
extraction succeeds. -/
theorem cellsOf_interior_ok {nx ny : ℕ} (L : ℕ → ℕ → ℤ) (ps : List (ℕ × ℕ))
    (h : ∀ p ∈ ps, 1 ≤ p.1 ∧ p.1 + 1 < nx ∧ 1 ≤ p.2 ∧ p.2 + 1 < ny) :
    isOk (cellsOf nx ny L ps) = true := by
  induction ps with
  | nil => rfl
  | cons p ps ih =>
    obtain ⟨h1, h2, h3, h4⟩ := h p (List.mem_cons_self p ps)
    obtain ⟨l, hl⟩ := dirsOf_interior_ok L h1 h2 h3 h4 dirRange (by decide)
    have hrest := ih (fun r hr => h r (List.mem_cons_of_mem _ hr))
    simp only [cellsOf, hl]
    cases hc : cellsOf nx ny L ps with
    | ok r => rfl
    | error e => rw [hc] at hrest; exact absurd hrest (by simp [isOk])

set_option maxHeartbeats 2000000 in
/-- Evaluation of the scenario-A tagging test: every cell of the 3x3 grid
is tagged by P1. -/
theorem tagged_scenA : ∀ a b, a < 3 → b < 3 → taggedCell cfg1 P1 a b = true := by
  intro a b ha hb
  interval_cases a <;> interval_cases b <;>
    norm_num [taggedCell, lattice_coords, is_inside, npMin, npMax, cfg1, P1,
      List.range_succ]

set_option maxHeartbeats 1000000 in
/-- The scenario-A obstacle list in fill-loop order. -/
theorem obs_scenA : obstacleList cfg1 P1 =
    [(0, 0), (0, 1), (0, 2), (1, 0), (1, 1), (1, 2), (2, 0), (2, 1), (2, 2)] := by
  simp only [obstacleList, show cfg1.nx = 3 from rfl, show cfg1.ny = 3 from rfl]
  norm_num [List.range_succ, List.filterMap_cons, tagged_scenA]

/-- The scenario-A tag grid agrees with its explicit form on the grid. -/
theorem fill_scenA : ∀ a b, a < 3 → b < 3 → fillLattice cfg1 P1 1 L0 a b = Lex1 a b := by
  intro a b ha hb
  have ht := tagged_scenA a b ha hb
  simp [fillLattice, ht, Lex1, L0, show cfg1.nx = 3 from rfl,
    show cfg1.ny = 3 from rfl, ha, hb]

set_option maxHeartbeats 4000000 in
/-- Evaluation of the scenario-B tagging test on the 5x5 grid. -/
theorem tagged_scenB : ∀ a b, a < 5 → b < 5 →
    taggedCell cfg2 P2 a b = decide (a ≤ 1 ∧ 1 ≤ b ∧ b ≤ 3) := by
  intro a b ha hb
  interval_cases a <;> interval_cases b <;>
    norm_num [taggedCell, lattice_coords, is_inside, npMin, npMax, cfg2, P2,
      List.range_succ]

set_option maxHeartbeats 1000000 in
/-- The scenario-B obstacle list in fill-loop order. -/
theorem obs_scenB : obstacleList cfg2 P2 =
    [(0, 1), (0, 2), (0, 3), (1, 1), (1, 2), (1, 3)] := by
  simp only [obstacleList, show cfg2.nx = 5 from rfl, show cfg2.ny = 5 from rfl]
  norm_num [List.range_succ, List.filterMap_cons, tagged_scenB]

/-- The scenario-B tag grid agrees with its explicit form on the grid. -/
theorem fill_scenB : ∀ a b, a < 5 → b < 5 → fillLattice cfg2 P2 1 L0 a b = Lex2 a b := by
  intro a b ha hb
  have ht := tagged_scenB a b ha hb
  by_cases hc : a ≤ 1 ∧ 1 ≤ b ∧ b ≤ 3 <;>
    simp [fillLattice, ht, Lex2, L0, show cfg2.nx = 5 from rfl,
      show cfg2.ny = 5 from rfl, ha, hb, hc]

set_option maxHeartbeats 4000000 in
/-- Evaluation of the scenario-C tagging test on the 5x5 grid. -/
theorem tagged_scenC : ∀ a b, a < 5 → b < 5 →
    taggedCell cfg2 P3 a b = decide (a = 2 ∧ b = 2) := by
  intro a b ha hb
  interval_cases a <;> interval_cases b <;>
    norm_num [taggedCell, lattice_coords, is_inside, npMin, npMax, cfg2, P3,
      List.range_succ]

set_option maxHeartbeats 1000000 in
/-- The scenario-C obstacle list: exactly the interior cell (2, 2). -/
theorem obs_scenC : obstacleList cfg2 P3 = [(2, 2)] := by
  simp only [obstacleList, show cfg2.nx = 5 from rfl, show cfg2.ny = 5 from rfl]
  norm_num [List.range_succ, List.filterMap_cons, tagged_scenC]

/-- The scenario-C tag grid agrees with its explicit form on the grid. -/
theorem fill_scenC : ∀ a b, a < 5 → b < 5 → fillLattice cfg2 P3 1 L0 a b = Lex3 a b := by
  intro a b ha hb
  have ht := tagged_scenC a b ha hb
  by_cases hc : a = 2 ∧ b = 2
  · obtain ⟨rfl, rfl⟩ := hc
    simp at ht
    simp [fillLattice, ht, Lex3, L0, show cfg2.nx = 5 from rfl,
      show cfg2.ny = 5 from rfl]
  · simp [fillLattice, ht, Lex3, L0, show cfg2.nx = 5 from rfl,
      show cfg2.ny = 5 from rfl, ha, hb, hc]

/-- The scenario-C boundary list after unique-sorting: the eight fluid
neighbors of cell (2, 2), each with the direction pointing back into the
obstacle. -/
theorem bdry3_eval : bdry3 =
    [(1, 1, 5), (1, 2, 1), (1, 3, 8), (2, 1, 3), (2, 3, 4),
     (3, 1, 7), (3, 2, 2), (3, 3, 6)] := by
  unfold bdry3
  rw [obs_scenC, cellsOf_congr fill_scenC]
  decide

/-- C1: under the precondition that the computed density is nonzero at
every cell, the macroscopic update sets, at every fluid cell,
rho = Σ_q g[q], u_x = (Σ_q c_x[q]·g[q]) / rho and
u_y = (Σ_q c_y[q]·g[q]) / rho. -/
theorem macro_update_formulas {nx ny : ℕ} (g : Fin 9 → Fin nx → Fin ny → ℚ)
    (latt : Fin nx → Fin ny → ℤ) (i : Fin nx) (j : Fin ny)
    (hrho : ∀ a b, computeRho g a b ≠ 0) (hf : latt i j = 0) :
    computeRho g i j = ∑ q, g q i j ∧
    computeUx g i j = (∑ q, ((cI q).1 : ℚ) * g q i j) / computeRho g i j ∧
    computeUy g i j = (∑ q, ((cI q).2 : ℚ) * g q i j) / computeRho g i j :=
  ⟨rfl, rfl, rfl⟩

/-- C1 witness: the 1x1 all-ones state has nonzero density and satisfies
the macroscopic formulas. -/
theorem macro_update_formulas_witness :
    (∀ a b : Fin 1, computeRho gW a b ≠ 0) ∧ lattW 0 0 = 0 ∧
    (computeRho gW 0 0 = ∑ q, gW q 0 0 ∧
      computeUx gW 0 0 = (∑ q, ((cI q).1 : ℚ) * gW q 0 0) / computeRho gW 0 0 ∧
      computeUy gW 0 0 = (∑ q, ((cI q).2 : ℚ) * gW q 0 0) / computeRho gW 0 0) := by
  have h1 : ∀ a b : Fin 1, computeRho gW a b ≠ 0 := by
    intro a b
    norm_num [computeRho, gW, Fin.sum_univ_succ]
  exact ⟨h1, rfl, macro_update_formulas gW lattW 0 0 h1 rfl⟩

/-- C2 counterexample: two states agreeing at every fluid cell but
differing at the obstacle cell (1, 1) produce different rho arrays, so the
macroscopic update does read obstacle-tagged cells. -/
theorem macro_reads_obstacle_cells :
    (∀ i j, lattC i j = 0 → ∀ q, gA q i j = gB q i j) ∧
    computeRho gA 1 1 ≠ computeRho gB 1 1 := by
  constructor
  · intro i j hij q
    fin_cases i <;> fin_cases j <;> simp_all [lattC, gA, gB]
  · norm_num [computeRho, gA, gB, Fin.sum_univ_succ]

/-- C2 (amended): the macroscopic update is cellwise local, so at every
fluid cell its outputs agree for two states that agree at that cell; at
obstacle cells the outputs may differ. -/
theorem macro_fluid_cells_agree {nx ny : ℕ} (g1 g2 : Fin 9 → Fin nx → Fin ny → ℚ)
    (latt : Fin nx → Fin ny → ℤ)
    (h : ∀ a b, latt a b = 0 → ∀ q, g1 q a b = g2 q a b)
    (i : Fin nx) (j : Fin ny) (hf : latt i j = 0) :
    computeRho g1 i j = computeRho g2 i j ∧
    computeUx g1 i j = computeUx g2 i j ∧
    computeUy g1 i j = computeUy g2 i j := by
  have hg : ∀ q, g1 q i j = g2 q i j := h i j hf
  have hr : computeRho g1 i j = computeRho g2 i j :=
    Finset.sum_congr rfl fun q _ => hg q
  have hx : (∑ q, ((cI q).1 : ℚ) * g1 q i j) = ∑ q, ((cI q).1 : ℚ) * g2 q i j :=
    Finset.sum_congr rfl fun q _ => by rw [hg q]
  have hy : (∑ q, ((cI q).2 : ℚ) * g1 q i j) = ∑ q, ((cI q).2 : ℚ) * g2 q i j :=
    Finset.sum_congr rfl fun q _ => by rw [hg q]
  exact ⟨hr, by simp only [computeUx, hr, hx], by simp only [computeUy, hr, hy]⟩

/-- C2 witness: applied to the concrete pair gA, gB at the fluid cell
(0, 0). -/
theorem macro_fluid_cells_agree_witness :
    (∀ a b, lattC a b = 0 → ∀ q, gA q a b = gB q a b) ∧ lattC 0 0 = 0 ∧
    (computeRho gA 0 0 = computeRho gB 0 0 ∧
      computeUx gA 0 0 = computeUx gB 0 0 ∧
      computeUy gA 0 0 = computeUy gB 0 0) := by
  have h : ∀ a b, lattC a b = 0 → ∀ q, gA q a b = gB q a b := by
    intro a b hab q
    fin_cases a <;> fin_cases b <;> simp_all [lattC, gA, gB]
  exact ⟨h, rfl, macro_fluid_cells_agree gA gB lattC h 0 0 rfl⟩

/-- C3 counterexample: in stop mode 'it' with the iteration counter equal
to it_max (criterion "count has reached it_max" holds) and the compute
flag clear, check_stop still returns false, because the source tests
it > it_max strictly. -/
theorem check_stop_at_threshold :
    sEq.stop = "it" ∧ sEq.it_max ≤ sEq.it ∧ sEq.compute = false ∧
    (check_stop sEq).1 = false := by
  refine ⟨rfl, by norm_num [sEq], rfl, ?_⟩
  simp [check_stop, sEq]

/-- C3 (amended): when the compute flag is not already set, check_stop
returns true exactly when, in stop mode 'it', the pre-call iteration count
strictly exceeds it_max, or, in stop mode 'obs', both buffers report
converged. -/
theorem check_stop_iff (s : StopState) (h : s.compute = false) :
    (check_stop s).1 = true ↔
      (s.stop = "it" ∧ s.it_max < s.it) ∨
      (s.stop = "obs" ∧ s.drag_cv = true ∧ s.lift_cv = true) := by
  simp only [check_stop]
  split_ifs with h1 h2 h3 <;> simp_all <;> tauto

/-- C3 witness: applied to the concrete state sIt with counter 6 > 5. -/
theorem check_stop_iff_witness :
    sIt.compute = false ∧
    ((check_stop sIt).1 = true ↔
      (sIt.stop = "it" ∧ sIt.it_max < sIt.it) ∨
      (sIt.stop = "obs" ∧ sIt.drag_cv = true ∧ sIt.lift_cv = true)) :=
  ⟨rfl, check_stop_iff sIt rfl⟩

/-- C4 counterexample: constructing with nx = ny = 2 (< 3) succeeds; no
GridConfigError is raised, contradicting the fail-fast claim. -/
theorem init_accepts_tiny_grid :
    cfgTiny.nx < 3 ∧ isOk (BaseDefine_init cfgTiny) = true :=
  ⟨by norm_num [cfgTiny], rfl⟩

/-- C4 (amended): construction performs no grid-size validation at all:
for every configuration, including any nx or ny below 3, BaseDefine
construction succeeds and never raises a GridConfigError (so in particular
it does not raise for nx, ny ≥ 3 either). -/
theorem init_never_raises (cfg : BaseConfig) :
    isOk (BaseDefine_init cfg) = true := rfl

/-- C5 (code bug): on the concrete IBB run of scenario C there are eight
boundary nodes, but the ibb array has nine entries: its first entry is the
uninitialized np.empty(1) cell (the junk parameter) and the distance of
boundary node 0 is stored at index 1, not index 0 — one entry per node
shifted by one, not exactly one entry per node. -/
theorem ibb_leading_junk_entry : ∀ junk : ℝ,
    (ibbFill junk cfg2 1 P3 bdry3).length = bdry3.length + 1 ∧
    bdry3.length = 8 ∧
    (ibbFill junk cfg2 1 P3 bdry3).head? = some junk ∧
    (ibbFill junk cfg2 1 P3 bdry3)[1]? = some (nodeDist cfg2 1 P3 (bdry3.getD 0 (0, 0, 0))) := by
  intro junk
  refine ⟨by simp [ibbFill], by rw [bdry3_eval]; decide, rfl, ?_⟩
  rw [bdry3_eval]
  rfl

/-- C6: the even-odd point-in-polygon test on the unit square reports
(1/2, 1/2) inside and (2, 2) outside. -/
theorem is_inside_unit_square :
    is_inside unitSquare (1 / 2, 1 / 2) = true ∧
    is_inside unitSquare (2, 2) = false := by
  constructor <;>
    norm_num [is_inside, unitSquare, List.range_succ]

/-- C7: the opposite-direction array is an involution fixing the rest
direction: ns[ns[q]] = q for every q and ns[0] = 0. -/
theorem ns_involution : (∀ q, ns (ns q) = q) ∧ ns 0 = 0 := by
  decide

/-- Componentwise evaluation of the D2Q9 velocity rows. -/
theorem cI_vals : cI 0 = (0, 0) ∧ cI 1 = (1, 0) ∧ cI 2 = (-1, 0) ∧ cI 3 = (0, 1) ∧
    cI 4 = (0, -1) ∧ cI 5 = (1, 1) ∧ cI 6 = (-1, -1) ∧ cI 7 = (-1, 1) ∧
    cI 8 = (1, -1) := by
  decide

/-- Squared norms of the D2Q9 velocity rows: 0 for the center, 1 for the
axis directions, 2 for the diagonals. -/
theorem cSqQ_vals : cSqQ 0 = 0 ∧ cSqQ 1 = 1 ∧ cSqQ 2 = 1 ∧ cSqQ 3 = 1 ∧ cSqQ 4 = 1 ∧
    cSqQ 5 = 2 ∧ cSqQ 6 = 2 ∧ cSqQ 7 = 2 ∧ cSqQ 8 = 2 := by
  norm_num [cSqQ, cI_vals.1, cI_vals.2.1, cI_vals.2.2.1, cI_vals.2.2.2.1,
    cI_vals.2.2.2.2.1, cI_vals.2.2.2.2.2.1, cI_vals.2.2.2.2.2.2.1,
    cI_vals.2.2.2.2.2.2.2.1, cI_vals.2.2.2.2.2.2.2.2]

/-- Componentwise evaluation of the staged weight construction. -/
theorem w_vals : w 0 = 4 / 9 ∧ w 1 = 1 / 9 ∧ w 2 = 1 / 9 ∧ w 3 = 1 / 9 ∧ w 4 = 1 / 9 ∧
    w 5 = 1 / 36 ∧ w 6 = 1 / 36 ∧ w 7 = 1 / 36 ∧ w 8 = 1 / 36 := by
  norm_num [w, wExtra, wCard, wOnes, cSqQ_vals.1, cSqQ_vals.2.1, cSqQ_vals.2.2.1,
    cSqQ_vals.2.2.2.1, cSqQ_vals.2.2.2.2.1, cSqQ_vals.2.2.2.2.2.1,
    cSqQ_vals.2.2.2.2.2.2.1, cSqQ_vals.2.2.2.2.2.2.2.1, cSqQ_vals.2.2.2.2.2.2.2.2,
    Fin.ext_iff, show ((1 : Fin 9) : ℕ) = 1 from rfl, show ((2 : Fin 9) : ℕ) = 2 from rfl,
    show ((3 : Fin 9) : ℕ) = 3 from rfl, show ((4 : Fin 9) : ℕ) = 4 from rfl,
    show ((5 : Fin 9) : ℕ) = 5 from rfl, show ((6 : Fin 9) : ℕ) = 6 from rfl,
    show ((7 : Fin 9) : ℕ) = 7 from rfl, show ((8 : Fin 9) : ℕ) = 8 from rfl]

/-- C8: the D2Q9 weight vector satisfies w[0] = 4/9, w[1..4] = 1/9,
w[5..8] = 1/36, and the weights sum to 1. -/
theorem w_values_and_sum :
    w 0 = 4 / 9 ∧ w 1 = 1 / 9 ∧ w 2 = 1 / 9 ∧ w 3 = 1 / 9 ∧ w 4 = 1 / 9 ∧
    w 5 = 1 / 36 ∧ w 6 = 1 / 36 ∧ w 7 = 1 / 36 ∧ w 8 = 1 / 36 ∧
    (∑ q, w q) = 1 := by
  have h := w_vals
  refine ⟨h.1, h.2.1, h.2.2.1, h.2.2.2.1, h.2.2.2.2.1, h.2.2.2.2.2.1,
    h.2.2.2.2.2.2.1, h.2.2.2.2.2.2.2.1, h.2.2.2.2.2.2.2.2, ?_⟩
  rw [Fin.sum_univ_succ, Fin.sum_univ_succ, Fin.sum_univ_succ, Fin.sum_univ_succ,
    Fin.sum_univ_succ, Fin.sum_univ_succ, Fin.sum_univ_succ, Fin.sum_univ_succ,
    Fin.sum_univ_one]
  norm_num [h.1, h.2.1, h.2.2.1, h.2.2.2.1, h.2.2.2.2.1, h.2.2.2.2.2.1,
    h.2.2.2.2.2.2.1, h.2.2.2.2.2.2.2.1, h.2.2.2.2.2.2.2.2,
    show (Fin.succ 2 : Fin 9) = 3 from rfl,
    show ((Fin.succ 2).succ : Fin 9) = 4 from rfl,
    show ((Fin.succ 2).succ.succ : Fin 9) = 5 from rfl,
    show ((Fin.succ 2).succ.succ.succ : Fin 9) = 6 from rfl,
    show ((Fin.succ 2).succ.succ.succ.succ : Fin 9) = 7 from rfl,
    show ((Fin.succ 2).succ.succ.succ.succ.succ : Fin 9) = 8 from rfl]

/-- C9: the boundary extraction of add_obstacle is unguarded: (a) when all
tagged cells are strictly interior every neighbor index is in range and
the extraction succeeds for any lattice contents; (b) scenario A tags the
edge cells (2, 0) (i = nx-1) and (0, 2) (j = ny-1) and its extraction
aborts with an out-of-range access; (c) scenario B tags column i = 0, its
index -1 silently wraps to the opposite edge (npIndex 5 (-1) = some 4),
the extraction succeeds, and a bogus boundary triple with ii = -1 is
recorded. -/
theorem boundary_extraction_bounds :
    (∀ (nx ny : ℕ) (L : ℕ → ℕ → ℤ) (obs : List (ℕ × ℕ)),
      (∀ p ∈ obs, 1 ≤ p.1 ∧ p.1 + 1 < nx ∧ 1 ≤ p.2 ∧ p.2 + 1 < ny) →
      ((∀ p ∈ obs, ∀ q ∈ dirRange,
          0 ≤ (p.1 : ℤ) + (cL.getD q (0, 0)).1 ∧
          (p.1 : ℤ) + (cL.getD q (0, 0)).1 < (nx : ℤ) ∧
          0 ≤ (p.2 : ℤ) + (cL.getD q (0, 0)).2 ∧
          (p.2 : ℤ) + (cL.getD q (0, 0)).2 < (ny : ℤ)) ∧
        isOk (cellsOf nx ny L obs) = true)) ∧
    (taggedCell cfg1 P1 2 0 = true ∧ taggedCell cfg1 P1 0 2 = true ∧
      isOk (cellsOf 3 3 (fillLattice cfg1 P1 1 L0) (obstacleList cfg1 P1)) = false) ∧
    (taggedCell cfg2 P2 0 2 = true ∧ npIndex 5 (-1) = some 4 ∧
      isOk (cellsOf 5 5 (fillLattice cfg2 P2 1 L0) (obstacleList cfg2 P2)) = true ∧
      (-1, 1, 1) ∈ getOk (cellsOf 5 5 (fillLattice cfg2 P2 1 L0) (obstacleList cfg2 P2))) := by
  refine ⟨?_, ⟨?_, ?_, ?_⟩, ⟨?_, by decide, ?_, ?_⟩⟩
  · intro nx ny L obs hint
    constructor
    · intro p hp q hq
      obtain ⟨h1, h2, h3, h4⟩ := hint p hp
      fin_cases hq <;> norm_num [cL] <;> omega
    · exact cellsOf_interior_ok L obs hint
  · exact tagged_scenA 2 0 (by norm_num) (by norm_num)
  · exact tagged_scenA 0 2 (by norm_num) (by norm_num)
  · rw [obs_scenA, cellsOf_congr fill_scenA]
    decide
  · exact tagged_scenB 0 2 (by norm_num) (by norm_num)
  · rw [obs_scenB, cellsOf_congr fill_scenB]
    decide
  · rw [obs_scenB, cellsOf_congr fill_scenB]
    decide

/-- C9 witness: the interior-cells part applied to the single interior
cell (1, 1) of a 3x3 grid. -/
theorem boundary_extraction_bounds_witness :
    (∀ p ∈ [((1 : ℕ), (1 : ℕ))], 1 ≤ p.1 ∧ p.1 + 1 < 3 ∧ 1 ≤ p.2 ∧ p.2 + 1 < 3) ∧
    isOk (cellsOf 3 3 L0 [(1, 1)]) = true := by
  refine ⟨by decide, ?_⟩
  exact (boundary_extraction_bounds.1 3 3 L0 [(1, 1)] (by decide)).2

/-- C10: check_stop is sticky and counts every call: the returned value is
the post-state compute flag, any call made with the compute flag already
set returns true (whatever the stop mode, counter and convergence flags),
and every call increments the iteration counter by exactly one. -/
theorem check_stop_sticky_and_counts :
    (∀ s, (check_stop s).1 = (check_stop s).2.compute) ∧
    (∀ s, s.compute = true → (check_stop s).1 = true) ∧
    (∀ s, (check_stop s).2.it = s.it + 1) := by
  refine ⟨fun s => ?_, fun s h => ?_, fun s => ?_⟩ <;>
    simp only [check_stop] <;> split_ifs <;> simp_all

/-- C10 witness: applied to the state sW whose compute flag is set while
neither stop criterion holds. -/
theorem check_stop_sticky_and_counts_witness :
    sW.compute = true ∧ (check_stop sW).1 = true :=
  ⟨rfl, check_stop_sticky_and_counts.2.1 sW rfl⟩
